import Mathlib

/-!
Shallow embedding of `src/main1.py` (cat_app): two HTTP client wrappers with
bounded exponential-backoff retry (`YaDiskUploader.upload_from_url`,
`CatImageFetcher.get_cat_image_url`), folder creation and size lookup against
the storage API, and the sequential driver `main`.

Every HTTP interaction is modelled by an explicit response oracle supplied by
the environment: the caller passes in what each network call would return
(a status code with a body, or a network failure, meaning a
`requests.RequestException`).  Each operation returns a run descriptor
recording its outcome, the backoff sleeps it performed (in seconds), the
number of loop attempts, and the number of HTTP requests issued, so the
observable behaviour of the Python code is captured without any IO.

Conventions taken from the `requests` library semantics used by the source:
`response.raise_for_status()` raises an `HTTPError` (a subclass of
`RequestException`) exactly for status codes in `[400, 600)`; `response.json()`
on a body that is not valid JSON raises `requests.exceptions.JSONDecodeError`,
which in the requests versions current at the time of writing is a subclass of
`RequestException`.  Python integers are modelled by `Int` where a negative
value is possible (`max_retries`), sizes by `Int` (a JSON number field).
-/

namespace CatApp

/-- Model of `response.raise_for_status()` of the requests library: it
raises iff the status code is in `[400, 600)` (client or server error). -/
def raise_for_status (code : Nat) : Bool :=
  decide (400 ≤ code ∧ code < 600)

/-! ### CatImageFetcher.get_cat_image_url (src/main1.py lines 91-115) -/

/-- Outcome of one `requests.get` to the cat API inside one loop attempt:
a `RequestException` (network failure, or an error status surfaced by
`raise_for_status`, carrying the exception message), a body that is not valid
JSON (so `response.json()` raises, caught by the `(ValueError, KeyError)`
handler), or a parsed JSON object whose optional field is the value of the
key `url` when present. -/
inductive CatResp where
  | reqErr (msg : String)
  | badJson
  | json (urlField : Option String)
deriving DecidableEq

/-- How a call to `get_cat_image_url` ends: a returned URL string, the
`ValueError "Text cannot be empty"` raised before the loop, the final
`RequestException` re-raised after exhausting retries, or the implicit
`None` returned in Python when the loop body runs zero times. -/
inductive CatResult where
  | url (u : String)
  | raisedValidation
  | raisedReqErr (msg : String)
  | none
deriving DecidableEq

/-- Observable trace of one `get_cat_image_url` call: its outcome, the
backoff sleeps performed between attempts (seconds, in order), the number of
loop attempts entered, and the number of HTTP requests issued. -/
structure CatRun where
  result : CatResult
  sleeps : List Nat
  attempts : Nat
  requests : Nat
deriving DecidableEq

/-- The retry loop of `get_cat_image_url`: `for attempt in
range(max_retries + 1)`.  `fuel` is the number of loop iterations still
available (initially `(max_retries + 1).toNat`, so zero when
`max_retries < 0`); `attempt` is the current Python loop index.  On a
`RequestException` with `attempt < max_retries` the code sleeps
`2 ** attempt` seconds and continues; on the last attempt it re-raises.
A bad JSON body or a JSON object without the key `url` returns the fallback
URL built from `text`. -/
def catAttempts (text : String) (resp : Nat → CatResp) (max_retries : Int) :
    Nat → Nat → CatRun
  | _, 0 => ⟨.none, [], 0, 0⟩
  | attempt, fuel + 1 =>
    match resp attempt with
    | .reqErr msg =>
      if (attempt : Int) < max_retries then
        let r := catAttempts text resp max_retries (attempt + 1) fuel
        ⟨r.result, 2 ^ attempt :: r.sleeps, r.attempts + 1, r.requests + 1⟩
      else
        ⟨.raisedReqErr msg, [], 1, 1⟩
    | .badJson => ⟨.url ("https://cataas.com/cat/says/" ++ text), [], 1, 1⟩
    | .json urlField =>
      match urlField with
      | some u => ⟨.url ("https://cataas.com" ++ u), [], 1, 1⟩
      | Option.none => ⟨.url ("https://cataas.com/cat/says/" ++ text), [], 1, 1⟩

/-- Embedding of `CatImageFetcher.get_cat_image_url(text, max_retries=3)`:
raises
`ValueError` when `text` is empty (before any network call), otherwise runs
the retry loop over the per-attempt responses `resp`. -/
def get_cat_image_url (text : String) (resp : Nat → CatResp)
    (max_retries : Int) : CatRun :=
  if text = "" then ⟨.raisedValidation, [], 0, 0⟩
  else catAttempts text resp max_retries 0 (max_retries + 1).toNat

/-! ### YaDiskUploader.get_upload_link / upload_from_url (lines 43-72) -/

/-- Outcome of the `get_upload_link` call made inside one upload attempt:
a `RequestException` (network failure or error status), a 2xx JSON response
missing the key `href` (the `KeyError` is re-raised as
`ValueError("Invalid API response format")`, which the retry loop does not
catch), or the extracted upload link. -/
inductive LinkResp where
  | reqErr (msg : String)
  | noHref
  | href (h : String)
deriving DecidableEq

/-- Outcome of the `requests.post(upload_link, ...)` call of one attempt:
a `RequestException`, or success where `body` is the parsed JSON of the
response when `response.content` is non-empty and `Option.none` stands for
the empty dict returned when the content is empty. -/
inductive PostResp where
  | reqErr (msg : String)
  | ok (body : Option String)
deriving DecidableEq

/-- The network behaviour of one attempt of `upload_from_url`: first the
upload-link request, then (if a link was obtained) the POST. -/
structure UploadStep where
  link : LinkResp
  post : PostResp
deriving DecidableEq

/-- How a call to `upload_from_url` ends: the value returned on success,
the `ValueError("Invalid API response format")` propagating out of
`get_upload_link`, the final `RequestException` after exhausting retries,
or the implicit `None` when the loop body runs zero times. -/
inductive UploadResult where
  | ok (body : Option String)
  | raisedFormat
  | raisedReqErr (msg : String)
  | none
deriving DecidableEq

/-- Observable trace of one `upload_from_url` call (same fields as
`CatRun`; a successful attempt issues two HTTP requests, one for the link
and one POST). -/
structure UploadRun where
  result : UploadResult
  sleeps : List Nat
  attempts : Nat
  requests : Nat
deriving DecidableEq

/-- The retry loop of `upload_from_url`, structured exactly like
`catAttempts`: a `RequestException` from either request of the attempt is
caught; with `attempt < max_retries` the code sleeps `2 ** attempt` seconds
and continues, on the last attempt it re-raises.  The `ValueError` from a
malformed link response is not caught and propagates at once. -/
def uploadAttempts (resp : Nat → UploadStep) (max_retries : Int) :
    Nat → Nat → UploadRun
  | _, 0 => ⟨.none, [], 0, 0⟩
  | attempt, fuel + 1 =>
    match (resp attempt).link with
    | .noHref => ⟨.raisedFormat, [], 1, 1⟩
    | .reqErr msg =>
      if (attempt : Int) < max_retries then
        let r := uploadAttempts resp max_retries (attempt + 1) fuel
        ⟨r.result, 2 ^ attempt :: r.sleeps, r.attempts + 1, r.requests + 1⟩
      else
        ⟨.raisedReqErr msg, [], 1, 1⟩
    | .href _ =>
      match (resp attempt).post with
      | .reqErr msg =>
        if (attempt : Int) < max_retries then
          let r := uploadAttempts resp max_retries (attempt + 1) fuel
          ⟨r.result, 2 ^ attempt :: r.sleeps, r.attempts + 1, r.requests + 2⟩
        else
          ⟨.raisedReqErr msg, [], 1, 2⟩
      | .ok body => ⟨.ok body, [], 1, 2⟩

/-- Embedding of `YaDiskUploader.upload_from_url(yandex_path, file_url,
max_retries=3)`.  The path and source URL only feed the request URLs and log lines, so the
observable trace depends on the response oracle alone. -/
def upload_from_url (yandex_path file_url : String) (resp : Nat → UploadStep)
    (max_retries : Int) : UploadRun :=
  uploadAttempts resp max_retries 0 (max_retries + 1).toNat

/-! ### YaDiskUploader.create_folder (lines 26-41) -/

/-- Outcome of one metadata request (`GET` or `PUT` on
`/v1/disk/resources?path=...`): a network-level `RequestException`, or a
response with the given status code. -/
inductive MetaResp where
  | netErr
  | status (code : Nat)
deriving DecidableEq

/-- The network behaviour available to one `create_folder` call: the
existence-check GET outcome and the creation PUT outcome (the latter is
consulted only when the GET returned 404). -/
structure FolderEnv where
  getResp : MetaResp
  putResp : MetaResp
deriving DecidableEq

/-- How `create_folder` ends: normal return, or a `RequestException`
(re-raised by the `except` clause after logging). -/
inductive FolderResult where
  | ok
  | raised
deriving DecidableEq

/-- Embedding of `YaDiskUploader.create_folder(folder_name)`: GET the
path; on 404 PUT
to create it and `raise_for_status` on the PUT response; on 200 log and
return; on any other status call `raise_for_status` on the GET response
(which raises only for codes in `[400, 600)`).  The second component
records whether the creation PUT was issued. -/
def create_folder (folder_name : String) (env : FolderEnv) :
    FolderResult × Bool :=
  match env.getResp with
  | .netErr => (.raised, false)
  | .status code =>
    if code = 404 then
      match env.putResp with
      | .netErr => (.raised, true)
      | .status putCode =>
        if raise_for_status putCode then (.raised, true) else (.ok, true)
    else if code = 200 then (.ok, false)
    else if raise_for_status code then (.raised, false) else (.ok, false)

/-! ### YaDiskUploader.get_file_size (lines 74-83) -/

/-- The body of the existence-check response as seen by `get_file_size`:
not valid JSON (`response.json()` raises `requests.exceptions.JSONDecodeError`,
a `RequestException` in current requests versions, so it is caught), valid
JSON whose top-level value is not an object (`info.get` then raises an
`AttributeError` with the given message, which the handler does not catch),
or an object with an optional numeric field `size`. -/
inductive SizeBody where
  | malformed
  | nonObject (emsg : String)
  | obj (size : Option Int)
deriving DecidableEq

/-- Outcome of the GET issued by `get_file_size`. -/
inductive SizeResp where
  | netErr
  | resp (code : Nat) (body : SizeBody)
deriving DecidableEq

/-- How `get_file_size` ends: a returned number, or an uncaught
`AttributeError` propagating out of `info.get('size', 0)`. -/
inductive SizeResult where
  | size (n : Int)
  | raisedAttr (emsg : String)
deriving DecidableEq

/-- Embedding of `YaDiskUploader.get_file_size(path)`: GET the path, then
`raise_for_status`,
parse the JSON body and return `info.get('size', 0)`; every
`RequestException` on the way is caught and turned into the return value 0.
An `AttributeError` from a non-object body is not a `RequestException` and
escapes the handler. -/
def get_file_size (path : String) (r : SizeResp) : SizeResult :=
  match r with
  | .netErr => .size 0
  | .resp code body =>
    if raise_for_status code then .size 0
    else
      match body with
      | .malformed => .size 0
      | .nonObject emsg => .raisedAttr emsg
      | .obj size => .size (size.getD 0)

/-! ### Driver: validate_config and main (lines 118-213) -/

/-- The fields of the external `Config` object that the driver reads.
`CAT_TEXTS` is modelled as a list of strings (the `isinstance(..., list)`
check of `validate_config` is then always satisfied). -/
structure Config where
  YANDEX_DISK_TOKEN : String
  YANDEX_DISK_FOLDER : String
  CAT_TEXTS : List String
deriving DecidableEq

/-- Embedding of `validate_config(config)`: it raises a `ValueError` iff
the token is empty,
the folder name is empty, or the caption list is empty (Python truthiness of
strings and lists); the trailing `isalnum` check only logs a warning. -/
def validate_config_raises (config : Config) : Prop :=
  config.YANDEX_DISK_TOKEN = "" ∨ config.YANDEX_DISK_FOLDER = "" ∨
    config.CAT_TEXTS = []

instance (config : Config) : Decidable (validate_config_raises config) :=
  inferInstanceAs (Decidable (_ ∨ _ ∨ _))

/-- Status values written into the per-file record by the driver loop. -/
inductive Status where
  | success
  | uploaded_but_size_unknown
  | failed
deriving DecidableEq

/-- One entry of the `files_info` list: the dict appended per caption.  The
`error` key is present (`some`) exactly in records built in the `except`
branch. -/
structure UploadRecord where
  filename : String
  text : String
  size : Int
  path : String
  status : Status
  error : Option String
deriving DecidableEq

/-- The network behaviour backing the processing of one caption: the
per-attempt responses of the image fetch, the per-attempt behaviour of the
upload, and the size-lookup response. -/
structure CaptionNet where
  catResp : Nat → CatResp
  upStep : Nat → UploadStep
  sizeResp : SizeResp

/-- Model of `text.replace(' ', '_')` of the source: since the pattern is
the single
character `' '`, the replacement is a per-character substitution. -/
def replaceSpaces (text : String) : String :=
  String.mk (text.data.map (fun c => if c = ' ' then '_' else c))

/-- The record appended in the `except Exception` branch of the driver loop
for caption `text`: size 0, status failed, and `str(e)` in the error field. -/
def failedRecord (folder text emsg : String) : UploadRecord :=
  ⟨replaceSpaces text ++ ".jpg", text, 0,
    "/" ++ folder ++ "/" ++ replaceSpaces text ++ ".jpg", .failed, some emsg⟩

/-- The body of the driver loop for one caption (lines 149-185): fetch the
image URL, derive the filename and destination path, upload, query the size,
and classify; any exception raised by a step is caught by the
`except Exception` clause and recorded as a failed record carrying the
exception message.  Both client calls use their default `max_retries=3`, so
their `None` outcome (loop body run zero times) cannot occur; Python would
just carry the `None` forward, which the model mirrors by continuing. -/
def processCaption (folder : String) (net : CaptionNet) (text : String) :
    UploadRecord :=
  let filename := replaceSpaces text ++ ".jpg"
  let yandex_path := "/" ++ folder ++ "/" ++ filename
  let afterFetch := fun (cat_url : String) =>
    match (upload_from_url yandex_path cat_url net.upStep 3).result with
    | .raisedFormat => failedRecord folder text "Invalid API response format"
    | .raisedReqErr msg => failedRecord folder text msg
    | .ok _ | .none =>
      match get_file_size yandex_path net.sizeResp with
      | .raisedAttr emsg => failedRecord folder text emsg
      | .size size =>
        if size > 0 then ⟨filename, text, size, yandex_path, .success, Option.none⟩
        else ⟨filename, text, size, yandex_path, .uploaded_but_size_unknown, Option.none⟩
  match (get_cat_image_url text net.catResp 3).result with
  | .raisedValidation => failedRecord folder text "Text cannot be empty"
  | .raisedReqErr msg => failedRecord folder text msg
  | .url u => afterFetch u
  | .none => afterFetch ""

/-- The message of the exception that the `except Exception` clause of the
driver loop catches while processing one caption, or `Option.none` when the
caption is processed without an exception; mirrors the step structure of
`processCaption` (the observable outcomes of `upload_from_url` and
`get_file_size` do not depend on the path strings passed to them). -/
def captionRaises (folder : String) (net : CaptionNet) (text : String) :
    Option String :=
  let filename := replaceSpaces text ++ ".jpg"
  let yandex_path := "/" ++ folder ++ "/" ++ filename
  let afterFetch := fun (cat_url : String) =>
    match (upload_from_url yandex_path cat_url net.upStep 3).result with
    | .raisedFormat => some "Invalid API response format"
    | .raisedReqErr msg => some msg
    | .ok _ | .none =>
      match get_file_size yandex_path net.sizeResp with
      | .raisedAttr emsg => some emsg
      | .size _ => Option.none
  match (get_cat_image_url text net.catResp 3).result with
  | .raisedValidation => some "Text cannot be empty"
  | .raisedReqErr msg => some msg
  | .url u => afterFetch u
  | .none => afterFetch ""

/-- The driver loop over the caption list, threading the caption index into
the per-caption network oracle and accumulating `files_info`, `successful`
and `failed` exactly as the Python counters do: every non-failed record
increments `successful`, every failed one increments `failed`. -/
def processAll (folder : String) (nets : Nat → CaptionNet) :
    List String → Nat → List UploadRecord × Nat × Nat
  | [], _ => ([], 0, 0)
  | text :: rest, i =>
    let r := processCaption folder (nets i) text
    let prev := processAll folder nets rest (i + 1)
    (r :: prev.1, (if r.status = .failed then prev.2.1 else prev.2.1 + 1),
      (if r.status = .failed then prev.2.2 + 1 else prev.2.2))

/-- The `summary` object written to `files_info.json`. -/
structure RunSummary where
  total : Nat
  successful : Nat
  failed : Nat
  folder : String
deriving DecidableEq

/-- The environment of one `main()` run: the responses seen by
`create_folder`, the per-caption network behaviour, and whether writing
`files_info.json` succeeds. -/
structure MainEnv where
  folderEnv : FolderEnv
  nets : Nat → CaptionNet
  writeOk : Bool

/-- Everything observable about one `main()` run: the returned exit code,
the `files_info` list built by the loop (empty when a critical error aborts
the run before the loop), the summary computed for `files_info.json`
(`Option.none` when a critical error aborts first), and whether the JSON file
was actually written. -/
structure RunResult where
  exitCode : Nat
  files : List UploadRecord
  summary : Option RunSummary
  wrote : Bool

/-- Embedding of `main()` (lines 130-213): validate the config and create
the folder
inside the outer `try` (any exception there is caught by the outer
`except Exception` and turns into exit code 1); then process every caption,
attempt to write `files_info.json` (a write failure is caught and only
logged), and return 1 iff `failed > 0`. -/
def main (config : Config) (env : MainEnv) : RunResult :=
  if validate_config_raises config then ⟨1, [], Option.none, false⟩
  else
    match (create_folder config.YANDEX_DISK_FOLDER env.folderEnv).1 with
    | .raised => ⟨1, [], Option.none, false⟩
    | .ok =>
      let pr := processAll config.YANDEX_DISK_FOLDER env.nets config.CAT_TEXTS 0
      ⟨if pr.2.2 > 0 then 1 else 0, pr.1,
        some ⟨config.CAT_TEXTS.length, pr.2.1, pr.2.2,
          config.YANDEX_DISK_FOLDER⟩,
        env.writeOk⟩

/-- One attempt of `upload_from_url` fails transiently with message `msg`
when either of its two requests raises a `RequestException`: the
upload-link request, or (a link having been obtained) the POST. -/
def UploadStep.transient (s : UploadStep) (msg : String) : Prop :=
  s.link = .reqErr msg ∨ ∃ h, s.link = .href h ∧ s.post = .reqErr msg

/-! ### Theorems -/

/-- Helper: the backoff sleep list grows by one head entry when the loop
advances one attempt. -/
theorem backoff_cons (attempt n : Nat) :
    2 ^ attempt :: List.map (fun i => 2 ^ (attempt + 1 + i)) (List.range n) =
      List.map (fun i => 2 ^ (attempt + i)) (List.range (n + 1)) := by
  rw [List.range_succ_eq_map]
  simp only [List.map_cons, List.map_map, Nat.add_zero]
  congr 1
  apply List.map_congr_left
  intro i _
  simp only [Function.comp_apply]
  congr 1
  omega

/-- Helper: the cat retry loop under attempts that fail transiently up to a
succeeding one.  If the next `N` attempts raise `RequestException` and the
one after returns a JSON object with a `url` field, and the loop has room
for them (`attempt + N ≤ m`, fuel counting the remaining iterations), the
loop returns the URL built from the response after backoff sleeps
`2 ^ attempt, ..., 2 ^ (attempt + N - 1)`, making `N + 1` attempts and as
many requests. -/
theorem catAttempts_succeeds (text : String) (resp : Nat → CatResp)
    (m : Nat) (u : String) :
    ∀ (N attempt fuel : Nat),
      (∀ i, i < N → ∃ msg, resp (attempt + i) = .reqErr msg) →
      resp (attempt + N) = .json (some u) →
      attempt + N ≤ m → attempt + fuel = m + 1 →
      catAttempts text resp (m : Int) attempt fuel =
        ⟨.url ("https://cataas.com" ++ u),
          (List.range N).map (fun i => 2 ^ (attempt + i)), N + 1, N + 1⟩ := by
  intro N
  induction N with
  | zero =>
    intro attempt fuel hfail hok hle hfuel
    obtain ⟨f, rfl⟩ : ∃ f, fuel = f + 1 := ⟨fuel - 1, by omega⟩
    rw [Nat.add_zero] at hok
    simp [catAttempts, hok]
  | succ n ih =>
    intro attempt fuel hfail hok hle hfuel
    obtain ⟨msg, hmsg⟩ := hfail 0 (Nat.succ_pos n)
    rw [Nat.add_zero] at hmsg
    obtain ⟨f, rfl⟩ : ∃ f, fuel = f + 1 := ⟨fuel - 1, by omega⟩
    have hlt : (attempt : Int) < (m : Int) := by
      have : attempt < m := by omega
      exact_mod_cast this
    have hih := ih (attempt + 1) f
      (fun i hi => by
        have := hfail (i + 1) (by omega)
        rwa [show attempt + (i + 1) = attempt + 1 + i by omega] at this)
      (by rwa [show attempt + 1 + n = attempt + (n + 1) by omega])
      (by omega) (by omega)
    simp only [catAttempts, hmsg, if_pos hlt, hih, backoff_cons attempt n]

/-- Helper: the cat retry loop under attempts that all fail transiently.
With every response a `RequestException`, the loop performs all remaining
iterations (one request each, with backoff sleeps between them) and
re-raises the error of the final attempt, whose index is `m`. -/
theorem catAttempts_exhausts (text : String) (resp : Nat → CatResp)
    (m : Nat) (msgs : Nat → String)
    (hfail : ∀ i, resp i = .reqErr (msgs i)) :
    ∀ (fuel attempt : Nat), attempt + fuel = m + 1 → 1 ≤ fuel →
      catAttempts text resp (m : Int) attempt fuel =
        ⟨.raisedReqErr (msgs m),
          (List.range (fuel - 1)).map (fun i => 2 ^ (attempt + i)),
          fuel, fuel⟩ := by
  intro fuel
  induction fuel with
  | zero => omega
  | succ f ih =>
    intro attempt hfuel _
    by_cases hlt : attempt < m
    · have hltI : (attempt : Int) < (m : Int) := by exact_mod_cast hlt
      have hih := ih (attempt + 1) (by omega) (by omega)
      simp only [catAttempts, hfail attempt, if_pos hltI, hih]
      obtain ⟨g, rfl⟩ : ∃ g, f = g + 1 := ⟨f - 1, by omega⟩
      simp only [Nat.add_sub_cancel, backoff_cons attempt g]
    · have ha : attempt = m := by omega
      have hf0 : f = 0 := by omega
      subst ha hf0
      have hnlt : ¬ ((attempt : Int) < (attempt : Int)) := by omega
      simp [catAttempts, hfail attempt, hnlt]

/-- Helper: the upload retry loop under attempts that fail transiently up
to a succeeding one; same statement as `catAttempts_succeeds` except that
the number of requests per attempt varies with the failure mode, so only
the result, the sleeps and the attempt count are stated. -/
theorem uploadAttempts_succeeds (resp : Nat → UploadStep) (m : Nat)
    (hr : String) (body : Option String) :
    ∀ (N attempt fuel : Nat),
      (∀ i, i < N → ∃ msg, (resp (attempt + i)).transient msg) →
      resp (attempt + N) = ⟨.href hr, .ok body⟩ →
      attempt + N ≤ m → attempt + fuel = m + 1 →
      (uploadAttempts resp (m : Int) attempt fuel).result = .ok body ∧
      (uploadAttempts resp (m : Int) attempt fuel).sleeps =
        (List.range N).map (fun i => 2 ^ (attempt + i)) ∧
      (uploadAttempts resp (m : Int) attempt fuel).attempts = N + 1 := by
  intro N
  induction N with
  | zero =>
    intro attempt fuel hfail hok hle hfuel
    obtain ⟨f, rfl⟩ : ∃ f, fuel = f + 1 := ⟨fuel - 1, by omega⟩
    rw [Nat.add_zero] at hok
    simp [uploadAttempts, hok]
  | succ n ih =>
    intro attempt fuel hfail hok hle hfuel
    obtain ⟨msg, hmsg⟩ := hfail 0 (Nat.succ_pos n)
    rw [Nat.add_zero] at hmsg
    obtain ⟨f, rfl⟩ : ∃ f, fuel = f + 1 := ⟨fuel - 1, by omega⟩
    have hlt : (attempt : Int) < (m : Int) := by
      have : attempt < m := by omega
      exact_mod_cast this
    have hih := ih (attempt + 1) f
      (fun i hi => by
        have := hfail (i + 1) (by omega)
        rwa [show attempt + (i + 1) = attempt + 1 + i by omega] at this)
      (by rwa [show attempt + 1 + n = attempt + (n + 1) by omega])
      (by omega) (by omega)
    rcases hmsg with hlink | ⟨h, hlink, hpost⟩
    · simp only [uploadAttempts, hlink, if_pos hlt]
      exact ⟨hih.1, by rw [hih.2.1]; exact backoff_cons attempt n,
        by rw [hih.2.2]⟩
    · simp only [uploadAttempts, hlink, hpost, if_pos hlt]
      exact ⟨hih.1, by rw [hih.2.1]; exact backoff_cons attempt n,
        by rw [hih.2.2]⟩

/-- Helper: the upload retry loop under attempts that all fail
transiently; mirror of `catAttempts_exhausts`. -/
theorem uploadAttempts_exhausts (resp : Nat → UploadStep) (m : Nat)
    (msgs : Nat → String)
    (hfail : ∀ i, (resp i).transient (msgs i)) :
    ∀ (fuel attempt : Nat), attempt + fuel = m + 1 → 1 ≤ fuel →
      (uploadAttempts resp (m : Int) attempt fuel).result =
        .raisedReqErr (msgs m) ∧
      (uploadAttempts resp (m : Int) attempt fuel).sleeps =
        (List.range (fuel - 1)).map (fun i => 2 ^ (attempt + i)) ∧
      (uploadAttempts resp (m : Int) attempt fuel).attempts = fuel := by
  intro fuel
  induction fuel with
  | zero => omega
  | succ f ih =>
    intro attempt hfuel _
    by_cases hlt : attempt < m
    · have hltI : (attempt : Int) < (m : Int) := by exact_mod_cast hlt
      have hih := ih (attempt + 1) (by omega) (by omega)
      have hsleeps : 2 ^ attempt ::
          List.map (fun i => 2 ^ (attempt + 1 + i)) (List.range (f - 1)) =
          List.map (fun i => 2 ^ (attempt + i)) (List.range (f + 1 - 1)) := by
        obtain ⟨g, rfl⟩ : ∃ g, f = g + 1 := ⟨f - 1, by omega⟩
        simp only [Nat.add_sub_cancel]
        exact backoff_cons attempt g
      rcases hfail attempt with hlink | ⟨h, hlink, hpost⟩
      · simp only [uploadAttempts, hlink, if_pos hltI]
        exact ⟨hih.1, by rw [hih.2.1]; exact hsleeps, by rw [hih.2.2]⟩
      · simp only [uploadAttempts, hlink, hpost, if_pos hltI]
        exact ⟨hih.1, by rw [hih.2.1]; exact hsleeps, by rw [hih.2.2]⟩
    · have ha : attempt = m := by omega
      have hf0 : f = 0 := by omega
      subst ha hf0
      have hnlt : ¬ ((attempt : Int) < (attempt : Int)) := by omega
      rcases hfail attempt with hlink | ⟨h, hlink, hpost⟩ <;>
        simp [uploadAttempts, hlink, *]

/-- C1: retry behaviour of both retrying operations with a non-negative
retry budget.  If the first `N ≤ max_retries` attempts fail transiently
(`RequestException`) and the next attempt succeeds, `upload_from_url`
returns the parsed response and `get_cat_image_url` returns the URL built
from the response, both after backoff sleeps of `1, 2, 4, ...` — that is,
`2 ^ attempt` seconds after failed attempt `attempt` — and `N + 1` loop
attempts; if every attempt fails transiently, both operations make exactly
`max_retries + 1` attempts and re-raise the error of the final attempt. -/
theorem retry_backoff_behavior
    (max_retries N : Nat) (hN : N ≤ max_retries)
    (yandex_path file_url text : String) (htext : text ≠ "")
    (respU : Nat → UploadStep)
    (hUfail : ∀ i, i < N → ∃ msg, (respU i).transient msg)
    (hr : String) (body : Option String)
    (hUok : respU N = ⟨.href hr, .ok body⟩)
    (respC : Nat → CatResp)
    (hCfail : ∀ i, i < N → ∃ msg, respC i = .reqErr msg)
    (u : String) (hCok : respC N = .json (some u))
    (respUF : Nat → UploadStep) (msgsU : Nat → String)
    (hUF : ∀ i, (respUF i).transient (msgsU i))
    (respCF : Nat → CatResp) (msgsC : Nat → String)
    (hCF : ∀ i, respCF i = .reqErr (msgsC i)) :
    ((upload_from_url yandex_path file_url respU (max_retries : Int)).result
        = .ok body ∧
      (upload_from_url yandex_path file_url respU (max_retries : Int)).sleeps
        = (List.range N).map (fun i => 2 ^ i) ∧
      (upload_from_url yandex_path file_url respU
        (max_retries : Int)).attempts = N + 1) ∧
    ((get_cat_image_url text respC (max_retries : Int)).result =
        .url ("https://cataas.com" ++ u) ∧
      (get_cat_image_url text respC (max_retries : Int)).sleeps =
        (List.range N).map (fun i => 2 ^ i) ∧
      (get_cat_image_url text respC (max_retries : Int)).attempts = N + 1) ∧
    ((upload_from_url yandex_path file_url respUF (max_retries : Int)).result
        = .raisedReqErr (msgsU max_retries) ∧
      (upload_from_url yandex_path file_url respUF
        (max_retries : Int)).sleeps =
        (List.range max_retries).map (fun i => 2 ^ i) ∧
      (upload_from_url yandex_path file_url respUF
        (max_retries : Int)).attempts = max_retries + 1) ∧
    ((get_cat_image_url text respCF (max_retries : Int)).result =
        .raisedReqErr (msgsC max_retries) ∧
      (get_cat_image_url text respCF (max_retries : Int)).sleeps =
        (List.range max_retries).map (fun i => 2 ^ i) ∧
      (get_cat_image_url text respCF (max_retries : Int)).attempts =
        max_retries + 1) := by
  have htn : ((max_retries : Int) + 1).toNat = max_retries + 1 := by omega
  refine ⟨?_, ?_, ?_, ?_⟩
  · have h := uploadAttempts_succeeds respU max_retries hr body N 0
      (max_retries + 1) (by simpa using hUfail) (by simpa using hUok)
      (by omega) (by omega)
    simp only [upload_from_url, htn]
    simpa using h
  · have h := catAttempts_succeeds text respC max_retries u N 0
      (max_retries + 1) (by simpa using hCfail) (by simpa using hCok)
      (by omega) (by omega)
    simp only [get_cat_image_url, if_neg htext, htn]
    simp [h]
  · have h := uploadAttempts_exhausts respUF max_retries msgsU hUF
      (max_retries + 1) 0 (by omega) (by omega)
    simp only [upload_from_url, htn]
    simpa using h
  · have h := catAttempts_exhausts text respCF max_retries msgsC hCF
      (max_retries + 1) 0 (by omega) (by omega)
    simp only [get_cat_image_url, if_neg htext, htn]
    simp [h]

/-- Closed witness for `retry_backoff_behavior` with `max_retries = 2` and
one transient failure before success. -/
theorem retry_backoff_behavior_witness :
    (1 : Nat) ≤ 2 ∧ ("hi" : String) ≠ "" ∧
    (upload_from_url "/pets/hi.jpg" "http://img"
      (fun i => if i = 0 then ⟨.reqErr "net down", .ok Option.none⟩
        else ⟨.href "L", .ok (some "resp")⟩) ((2 : Nat) : Int)).result =
      .ok (some "resp") ∧
    (upload_from_url "/pets/hi.jpg" "http://img"
      (fun i => if i = 0 then ⟨.reqErr "net down", .ok Option.none⟩
        else ⟨.href "L", .ok (some "resp")⟩) ((2 : Nat) : Int)).sleeps =
      [1] ∧
    (get_cat_image_url "hi"
      (fun i => if i = 0 then .reqErr "net down" else .json (some "/cat/img"))
      ((2 : Nat) : Int)).result = .url "https://cataas.com/cat/img" ∧
    (upload_from_url "/pets/hi.jpg" "http://img"
      (fun _ => ⟨.reqErr "net down", .reqErr "net down"⟩)
      ((2 : Nat) : Int)).result = .raisedReqErr "net down" ∧
    (upload_from_url "/pets/hi.jpg" "http://img"
      (fun _ => ⟨.reqErr "net down", .reqErr "net down"⟩)
      ((2 : Nat) : Int)).sleeps = [1, 2] ∧
    (get_cat_image_url "hi" (fun _ => .reqErr "net down")
      ((2 : Nat) : Int)).attempts = 3 := by
  have h := retry_backoff_behavior 2 1 (by decide) "/pets/hi.jpg"
    "http://img" "hi" (by decide)
    (fun i => if i = 0 then ⟨.reqErr "net down", .ok Option.none⟩
      else ⟨.href "L", .ok (some "resp")⟩)
    (fun i hi => match i, hi with
      | 0, _ => ⟨"net down", Or.inl rfl⟩
      | n + 1, hi => absurd hi (by omega))
    "L" (some "resp") (by decide)
    (fun i => if i = 0 then .reqErr "net down" else .json (some "/cat/img"))
    (fun i hi => match i, hi with
      | 0, _ => ⟨"net down", rfl⟩
      | n + 1, hi => absurd hi (by omega))
    "/cat/img" (by decide)
    (fun _ => ⟨.reqErr "net down", .reqErr "net down"⟩) (fun _ => "net down")
    (fun _ => Or.inl rfl)
    (fun _ => .reqErr "net down") (fun _ => "net down")
    (fun _ => rfl)
  refine ⟨by decide, by decide, h.1.1, ?_, ?_, h.2.2.1.1, ?_, ?_⟩
  · rw [h.1.2.1]; decide
  · simpa using h.2.1.1
  · rw [h.2.2.1.2.1]; decide
  · rw [h.2.2.2.2.2]

/-- C7: for the empty caption text and any retry budget,
`get_cat_image_url` raises `ValueError` immediately: no sleep, no loop
attempt, and no HTTP request is performed. -/
theorem empty_text_validation_no_network (resp : Nat → CatResp)
    (max_retries : Int) :
    get_cat_image_url "" resp max_retries = ⟨.raisedValidation, [], 0, 0⟩ :=
  rfl

/-- C8: `create_folder` is idempotent in the two-call scenario: the first
call sees 404 on the existence check and creates the folder (PUT answered
201), the second call sees 200; neither call errors and the second issues
no creation PUT, whatever the unused PUT outcome of the second call would
have been. -/
theorem create_folder_idempotent_scenario (folder_name : String)
    (put2 : MetaResp) :
    create_folder folder_name ⟨.status 404, .status 201⟩ = (.ok, true) ∧
    create_folder folder_name ⟨.status 200, put2⟩ = (.ok, false) :=
  ⟨rfl, rfl⟩

/-- C10: with a negative `max_retries`, the `for attempt in
range(max_retries + 1)` loop body of both `upload_from_url` and (for a
non-empty text) `get_cat_image_url` runs zero times, so the call issues no
HTTP request, sleeps never, raises nothing and returns `None`. -/
theorem negative_max_retries_noop (yandex_path file_url text : String)
    (respU : Nat → UploadStep) (respC : Nat → CatResp) (max_retries : Int)
    (hm : max_retries < 0) (ht : text ≠ "") :
    upload_from_url yandex_path file_url respU max_retries =
      ⟨.none, [], 0, 0⟩ ∧
    get_cat_image_url text respC max_retries = ⟨.none, [], 0, 0⟩ := by
  have h0 : (max_retries + 1).toNat = 0 := Int.toNat_of_nonpos (by omega)
  constructor
  · simp only [upload_from_url, h0]
    rfl
  · simp only [get_cat_image_url, if_neg ht, h0]
    rfl

/-- Closed witness for `negative_max_retries_noop` at `max_retries = -1`. -/
theorem negative_max_retries_noop_witness :
    (-1 : Int) < 0 ∧ ("cat" : String) ≠ "" ∧
    upload_from_url "/pets/cat.jpg" "http://img"
      (fun _ => ⟨.reqErr "boom", .reqErr "boom"⟩) (-1) = ⟨.none, [], 0, 0⟩ ∧
    get_cat_image_url "cat" (fun _ => .reqErr "boom") (-1) =
      ⟨.none, [], 0, 0⟩ := by
  have h := negative_max_retries_noop "/pets/cat.jpg" "http://img" "cat"
    (fun _ => ⟨.reqErr "boom", .reqErr "boom"⟩) (fun _ => .reqErr "boom")
    (-1) (by decide) (by decide)
  exact ⟨by decide, by decide, h.1, h.2⟩

/-- C2 counterexample: an existence check answered with status 201 is
neither 404 nor 200, yet `raise_for_status` does not raise for it, so
`create_folder` returns normally and issues no creation call — the claim
says any status other than 200 or 404 must raise. -/
theorem create_folder_intermediate_status_no_raise :
    create_folder "photos" ⟨.status 201, .status 201⟩ =
      (FolderResult.ok, false) :=
  rfl

/-- C2 amended: `create_folder` raises exactly on a network failure of the
existence check, on a check status in `[400, 600)` other than 404, or, when
the check status is 404, on a failing creation PUT (network failure or PUT
status in `[400, 600)`); the creation PUT is issued exactly when the check
status is 404; every other check status — 200 included — returns normally
with no further call. -/
theorem create_folder_raises_iff (folder_name : String) (code : Nat)
    (put : MetaResp) :
    create_folder folder_name ⟨.netErr, put⟩ = (.raised, false) ∧
    ((create_folder folder_name ⟨.status code, put⟩).1 = .raised ↔
      (code ≠ 404 ∧ 400 ≤ code ∧ code < 600) ∨
      (code = 404 ∧ (put = .netErr ∨ ∃ putCode,
        put = .status putCode ∧ 400 ≤ putCode ∧ putCode < 600))) ∧
    ((create_folder folder_name ⟨.status code, put⟩).2 = true ↔
      code = 404) := by
  refine ⟨rfl, ?_, ?_⟩ <;>
    rcases put with _ | putCode <;>
      simp only [create_folder, raise_for_status] <;>
        split_ifs with h1 h2 h3 <;>
          simp_all

/-- C3 counterexample: a 200 response whose body is valid JSON but not an
object (for instance a JSON array) makes `info.get('size', 0)` raise an
`AttributeError`, which the `except requests.RequestException` clause does
not catch — the claim says `get_file_size` never raises. -/
theorem get_file_size_nonobject_raises :
    get_file_size "/photos/cat.jpg"
      (.resp 200 (.nonObject "list object has no attribute get")) =
      .raisedAttr "list object has no attribute get" :=
  rfl

/-- C3 amended: `get_file_size` returns the size field on a successful
response carrying an object body, and returns 0 — without raising — on a
network failure, an error status in `[400, 600)`, a body that is not valid
JSON, or an object body without a size field; but when the body is valid
JSON whose top-level value is not an object, an `AttributeError` propagates
out of the function. -/
theorem get_file_size_soft_failure (path : String) (codeErr codeOk : Nat)
    (body : SizeBody) (size : Int) (emsg : String) :
    (get_file_size path .netErr = .size 0) ∧
    (400 ≤ codeErr ∧ codeErr < 600 →
      get_file_size path (.resp codeErr body) = .size 0) ∧
    (¬(400 ≤ codeOk ∧ codeOk < 600) →
      get_file_size path (.resp codeOk (.obj (some size))) = .size size ∧
      get_file_size path (.resp codeOk (.obj Option.none)) = .size 0 ∧
      get_file_size path (.resp codeOk .malformed) = .size 0 ∧
      get_file_size path (.resp codeOk (.nonObject emsg)) =
        .raisedAttr emsg) := by
  refine ⟨rfl, fun h => ?_, fun h => ?_⟩
  · simp [get_file_size, raise_for_status, h]
  · simp [get_file_size, raise_for_status, h]

/-- Closed witness for `get_file_size_soft_failure` at statuses 500 and
200. -/
theorem get_file_size_soft_failure_witness :
    ((400 ≤ 500 ∧ 500 < 600) ∧ ¬(400 ≤ 200 ∧ 200 < 600)) ∧
    (get_file_size "/photos/cat.jpg" (.resp 500 .malformed) = .size 0 ∧
      get_file_size "/photos/cat.jpg" (.resp 200 (.obj (some 1234))) =
        .size 1234 ∧
      get_file_size "/photos/cat.jpg" (.resp 200 (.nonObject "no get")) =
        .raisedAttr "no get") := by
  have h := get_file_size_soft_failure "/photos/cat.jpg" 500 200 .malformed
    1234 "no get"
  exact ⟨⟨by decide, by decide⟩,
    h.2.1 (by decide), (h.2.2 (by decide)).1, (h.2.2 (by decide)).2.2.2⟩

/-- Helper: when some step of one caption raises, the driver loop appends
exactly the failed record with the exception message. -/
theorem processCaption_raised (folder : String) (net : CaptionNet)
    (text emsg : String)
    (h : captionRaises folder net text = some emsg) :
    processCaption folder net text = failedRecord folder text emsg := by
  simp only [captionRaises] at h
  simp only [processCaption]
  rcases hc : (get_cat_image_url text net.catResp 3).result with u | _ | m | _ <;>
    simp only [hc] at h ⊢
  · rcases hu : (upload_from_url
        ("/" ++ folder ++ "/" ++ (replaceSpaces text ++ ".jpg")) u
        net.upStep 3).result with b | _ | m2 | _ <;>
      simp only [hu] at h ⊢
    · rcases hs : get_file_size
          ("/" ++ folder ++ "/" ++ (replaceSpaces text ++ ".jpg"))
          net.sizeResp with n | e2 <;>
        simp only [hs] at h ⊢
      · exact absurd h (by simp)
      · obtain rfl : e2 = emsg := by simpa using h
        rfl
    · obtain rfl : emsg = "Invalid API response format" := by simpa using h.symm
      rfl
    · obtain rfl : m2 = emsg := by simpa using h
      rfl
    · rcases hs : get_file_size
          ("/" ++ folder ++ "/" ++ (replaceSpaces text ++ ".jpg"))
          net.sizeResp with n | e2 <;>
        simp only [hs] at h ⊢
      · exact absurd h (by simp)
      · obtain rfl : e2 = emsg := by simpa using h
        rfl
  · obtain rfl : emsg = "Text cannot be empty" := by simpa using h.symm
    rfl
  · obtain rfl : m = emsg := by simpa using h
    rfl
  · rcases hu : (upload_from_url
        ("/" ++ folder ++ "/" ++ (replaceSpaces text ++ ".jpg")) ""
        net.upStep 3).result with b | _ | m2 | _ <;>
      simp only [hu] at h ⊢
    · rcases hs : get_file_size
          ("/" ++ folder ++ "/" ++ (replaceSpaces text ++ ".jpg"))
          net.sizeResp with n | e2 <;>
        simp only [hs] at h ⊢
      · exact absurd h (by simp)
      · obtain rfl : e2 = emsg := by simpa using h
        rfl
    · obtain rfl : emsg = "Invalid API response format" := by simpa using h.symm
      rfl
    · obtain rfl : m2 = emsg := by simpa using h
      rfl
    · rcases hs : get_file_size
          ("/" ++ folder ++ "/" ++ (replaceSpaces text ++ ".jpg"))
          net.sizeResp with n | e2 <;>
        simp only [hs] at h ⊢
      · exact absurd h (by simp)
      · obtain rfl : e2 = emsg := by simpa using h
        rfl

/-- Helper: the driver loop emits exactly one record per caption. -/
theorem processAll_length (folder : String) (nets : Nat → CaptionNet) :
    ∀ (texts : List String) (i : Nat),
      (processAll folder nets texts i).1.length = texts.length := by
  intro texts
  induction texts with
  | nil => intro i; simp [processAll]
  | cons t ts ih => intro i; simp [processAll, ih (i + 1)]

/-- Helper: the record at position `j` of the driver loop output is the
one produced for the caption at position `j`, processed with the network
behaviour of index `i + j`. -/
theorem processAll_get_eq (folder : String) (nets : Nat → CaptionNet) :
    ∀ (texts : List String) (i j : Nat),
      (processAll folder nets texts i).1.get? j =
        (texts.get? j).map
          (fun t => processCaption folder (nets (i + j)) t) := by
  intro texts
  induction texts with
  | nil => intro i j; simp [processAll]
  | cons t ts ih =>
    intro i j
    cases j with
    | zero => simp [processAll]
    | succ j =>
      simp only [processAll, List.get?_cons_succ]
      rw [ih (i + 1) j, show i + (j + 1) = i + 1 + j from by omega]

/-- Helper: the `failed` counter of the driver loop equals the number of
failed records in its output. -/
theorem processAll_failed (folder : String) (nets : Nat → CaptionNet) :
    ∀ (texts : List String) (i : Nat),
      (processAll folder nets texts i).2.2 =
        (processAll folder nets texts i).1.countP
          (fun r => decide (r.status = Status.failed)) := by
  intro texts
  induction texts with
  | nil => intro i; simp [processAll]
  | cons t ts ih =>
    intro i
    simp only [processAll, List.countP_cons]
    by_cases hst : (processCaption folder (nets i) t).status = .failed <;>
      simp [hst, ih (i + 1)]

/-- Helper: when neither configuration validation nor folder creation
raises, `main` runs the loop over all captions and builds the summary. -/
theorem main_ok (config : Config) (env : MainEnv)
    (hv : ¬ validate_config_raises config)
    (hf : (create_folder config.YANDEX_DISK_FOLDER env.folderEnv).1 = .ok) :
    main config env =
      ⟨if (processAll config.YANDEX_DISK_FOLDER env.nets
            config.CAT_TEXTS 0).2.2 > 0 then 1 else 0,
        (processAll config.YANDEX_DISK_FOLDER env.nets config.CAT_TEXTS 0).1,
        some ⟨config.CAT_TEXTS.length,
          (processAll config.YANDEX_DISK_FOLDER env.nets
            config.CAT_TEXTS 0).2.1,
          (processAll config.YANDEX_DISK_FOLDER env.nets
            config.CAT_TEXTS 0).2.2,
          config.YANDEX_DISK_FOLDER⟩,
        env.writeOk⟩ := by
  simp only [main, if_neg hv, hf]

/-- Helper: the record built for a caption whose fetch, upload and size
lookup all return normally: status `success` when the size is positive,
`uploaded_but_size_unknown` otherwise, with no error field. -/
theorem processCaption_ok (folder text : String) (net : CaptionNet)
    (u : String) (b : Option String) (n : Int)
    (h1 : (get_cat_image_url text net.catResp 3).result = .url u)
    (h2 : (upload_from_url ("/" ++ folder ++ "/" ++ (replaceSpaces text ++
        ".jpg")) u net.upStep 3).result = .ok b)
    (h3 : get_file_size ("/" ++ folder ++ "/" ++ (replaceSpaces text ++
        ".jpg")) net.sizeResp = .size n) :
    processCaption folder net text =
      if n > 0 then
        ⟨replaceSpaces text ++ ".jpg", text, n,
          "/" ++ folder ++ "/" ++ (replaceSpaces text ++ ".jpg"),
          .success, Option.none⟩
      else
        ⟨replaceSpaces text ++ ".jpg", text, n,
          "/" ++ folder ++ "/" ++ (replaceSpaces text ++ ".jpg"),
          .uploaded_but_size_unknown, Option.none⟩ := by
  simp only [processCaption, h1, h2, h3]

/-- C4: end-to-end run over the captions `hello` and `world`, both image
fetches and store calls succeeding and the queried sizes being 1234 and 0:
the summary is total 2, successful 2, failed 0; the records have statuses
`success` and `uploaded_but_size_unknown` in that order, filenames
`hello.jpg` and `world.jpg` and destination paths `/<folder>/hello.jpg`
and `/<folder>/world.jpg`; the exit code is 0. -/
theorem end_to_end_hello_world (token folder : String) (env : MainEnv)
    (htok : token ≠ "") (hfol : folder ≠ "")
    (hcf : (create_folder folder env.folderEnv).1 = .ok)
    (u0 u1 : String) (b0 b1 : Option String)
    (h0f : (get_cat_image_url "hello" (env.nets 0).catResp 3).result =
      .url u0)
    (h0u : (upload_from_url ("/" ++ folder ++ "/" ++ (replaceSpaces "hello"
      ++ ".jpg")) u0 (env.nets 0).upStep 3).result = .ok b0)
    (h0s : get_file_size ("/" ++ folder ++ "/" ++ (replaceSpaces "hello" ++
      ".jpg")) (env.nets 0).sizeResp = .size 1234)
    (h1f : (get_cat_image_url "world" (env.nets 1).catResp 3).result =
      .url u1)
    (h1u : (upload_from_url ("/" ++ folder ++ "/" ++ (replaceSpaces "world"
      ++ ".jpg")) u1 (env.nets 1).upStep 3).result = .ok b1)
    (h1s : get_file_size ("/" ++ folder ++ "/" ++ (replaceSpaces "world" ++
      ".jpg")) (env.nets 1).sizeResp = .size 0) :
    main ⟨token, folder, ["hello", "world"]⟩ env =
      ⟨0,
        [⟨"hello.jpg", "hello", 1234, "/" ++ folder ++ "/" ++ "hello.jpg",
          .success, Option.none⟩,
         ⟨"world.jpg", "world", 0, "/" ++ folder ++ "/" ++ "world.jpg",
          .uploaded_but_size_unknown, Option.none⟩],
        some ⟨2, 2, 0, folder⟩, env.writeOk⟩ := by
  have hv : ¬ validate_config_raises ⟨token, folder, ["hello", "world"]⟩ := by
    simp [validate_config_raises, htok, hfol]
  have p0 := processCaption_ok folder "hello" (env.nets 0) u0 b0 1234
    h0f h0u h0s
  have p1 := processCaption_ok folder "world" (env.nets 1) u1 b1 0
    h1f h1u h1s
  rw [if_pos (by omega : (1234 : Int) > 0)] at p0
  rw [if_neg (by omega : ¬ ((0 : Int) > 0))] at p1
  have e0 : replaceSpaces "hello" ++ ".jpg" = "hello.jpg" := by decide
  have e1 : replaceSpaces "world" ++ ".jpg" = "world.jpg" := by decide
  rw [e0] at p0
  rw [e1] at p1
  simp only [main_ok ⟨token, folder, ["hello", "world"]⟩ env hv hcf,
    processAll, p0, p1]
  simp

/-- Closed witness for `end_to_end_hello_world` with folder `cats`. -/
theorem end_to_end_hello_world_witness :
    ("t" : String) ≠ "" ∧ ("cats" : String) ≠ "" ∧
    (create_folder "cats"
      (⟨⟨.status 200, .status 200⟩,
        fun i => if i = 0 then
          ⟨fun _ => .json (some "/c/h"), fun _ => ⟨.href "L", .ok Option.none⟩,
            .resp 200 (.obj (some 1234))⟩
        else
          ⟨fun _ => .json (some "/c/w"), fun _ => ⟨.href "L", .ok Option.none⟩,
            .resp 200 (.obj (some 0))⟩,
        true⟩ : MainEnv).folderEnv).1 = .ok ∧
    main ⟨"t", "cats", ["hello", "world"]⟩
      ⟨⟨.status 200, .status 200⟩,
        fun i => if i = 0 then
          ⟨fun _ => .json (some "/c/h"), fun _ => ⟨.href "L", .ok Option.none⟩,
            .resp 200 (.obj (some 1234))⟩
        else
          ⟨fun _ => .json (some "/c/w"), fun _ => ⟨.href "L", .ok Option.none⟩,
            .resp 200 (.obj (some 0))⟩,
        true⟩ =
      ⟨0,
        [⟨"hello.jpg", "hello", 1234, "/" ++ "cats" ++ "/" ++ "hello.jpg",
          .success, Option.none⟩,
         ⟨"world.jpg", "world", 0, "/" ++ "cats" ++ "/" ++ "world.jpg",
          .uploaded_but_size_unknown, Option.none⟩],
        some ⟨2, 2, 0, "cats"⟩, true⟩ := by
  refine ⟨by decide, by decide, by decide, ?_⟩
  exact end_to_end_hello_world "t" "cats" _ (by decide) (by decide)
    (by decide) "https://cataas.com/c/h" "https://cataas.com/c/w"
    Option.none Option.none (by decide) (by decide) (by decide)
    (by decide) (by decide) (by decide)

/-- C5: `main` returns 1 when configuration validation raises or folder
creation raises (critical errors before processing); when both pass, it
returns 1 iff at least one record in the output list is failed, and 0
otherwise. -/
theorem exit_code_policy (config : Config) (env : MainEnv) :
    (validate_config_raises config → (main config env).exitCode = 1) ∧
    ((create_folder config.YANDEX_DISK_FOLDER env.folderEnv).1 = .raised →
      (main config env).exitCode = 1) ∧
    (¬ validate_config_raises config →
      (create_folder config.YANDEX_DISK_FOLDER env.folderEnv).1 = .ok →
      (main config env).exitCode =
        if 0 < (main config env).files.countP
            (fun r => decide (r.status = Status.failed)) then 1 else 0) := by
  refine ⟨fun hv => ?_, fun hf => ?_, fun hv hf => ?_⟩
  · simp [main, hv]
  · by_cases hv : validate_config_raises config
    · simp [main, hv]
    · simp [main, if_neg hv, hf]
  · simp only [main_ok config env hv hf]
    rw [processAll_failed]

/-- Closed witness for `exit_code_policy`: one caption whose fetch
exhausts retries, so the run completes with one failed record and exit
code 1. -/
theorem exit_code_policy_witness :
    ¬ validate_config_raises ⟨"t", "f", ["a"]⟩ ∧
    (create_folder "f"
      (⟨⟨.status 200, .status 200⟩,
        fun _ => ⟨fun _ => .reqErr "down",
          fun _ => ⟨.reqErr "down", .reqErr "down"⟩, .netErr⟩,
        true⟩ : MainEnv).folderEnv).1 = .ok ∧
    (main ⟨"t", "f", ["a"]⟩
      ⟨⟨.status 200, .status 200⟩,
        fun _ => ⟨fun _ => .reqErr "down",
          fun _ => ⟨.reqErr "down", .reqErr "down"⟩, .netErr⟩,
        true⟩).exitCode =
      if 0 < (main ⟨"t", "f", ["a"]⟩
        ⟨⟨.status 200, .status 200⟩,
          fun _ => ⟨fun _ => .reqErr "down",
            fun _ => ⟨.reqErr "down", .reqErr "down"⟩, .netErr⟩,
          true⟩).files.countP
          (fun r => decide (r.status = Status.failed)) then 1 else 0 := by
  refine ⟨by decide, by decide, ?_⟩
  exact (exit_code_policy ⟨"t", "f", ["a"]⟩ _).2.2 (by decide) (by decide)

/-- C6: per-caption isolation.  When validation and folder creation pass,
the output list has exactly one record per input caption in input order
(each built from that caption and its own network behaviour), and a
caption whose processing raises an exception yields the failed record
carrying the exception message — the remaining captions are still
processed. -/
theorem per_caption_isolation (config : Config) (env : MainEnv)
    (hv : ¬ validate_config_raises config)
    (hf : (create_folder config.YANDEX_DISK_FOLDER env.folderEnv).1 = .ok)
    (i : Nat) (t emsg : String)
    (ht : config.CAT_TEXTS.get? i = some t)
    (hraise : captionRaises config.YANDEX_DISK_FOLDER (env.nets i) t =
      some emsg) :
    (main config env).files.length = config.CAT_TEXTS.length ∧
    (∀ j, (main config env).files.get? j =
      (config.CAT_TEXTS.get? j).map
        (fun tj => processCaption config.YANDEX_DISK_FOLDER (env.nets j) tj)) ∧
    (main config env).files.get? i =
      some (failedRecord config.YANDEX_DISK_FOLDER t emsg) ∧
    (failedRecord config.YANDEX_DISK_FOLDER t emsg).status = .failed ∧
    (failedRecord config.YANDEX_DISK_FOLDER t emsg).error = some emsg := by
  simp only [main_ok config env hv hf]
  refine ⟨processAll_length _ _ _ _, fun j => ?_, ?_, rfl, rfl⟩
  · simpa using processAll_get_eq config.YANDEX_DISK_FOLDER env.nets
      config.CAT_TEXTS 0 j
  · have hg := processAll_get_eq config.YANDEX_DISK_FOLDER env.nets
      config.CAT_TEXTS 0 i
    rw [hg, ht]
    simp only [Option.map_some', Nat.zero_add]
    rw [processCaption_raised config.YANDEX_DISK_FOLDER (env.nets i) t emsg
      hraise]

/-- Closed witness for `per_caption_isolation`: a single caption whose
image fetch exhausts retries. -/
theorem per_caption_isolation_witness :
    ¬ validate_config_raises ⟨"t", "f", ["bad cat"]⟩ ∧
    captionRaises "f"
      ⟨fun _ => .reqErr "fetch down",
        fun _ => ⟨.href "L", .ok Option.none⟩, .netErr⟩ "bad cat" =
      some "fetch down" ∧
    (main ⟨"t", "f", ["bad cat"]⟩
      ⟨⟨.status 200, .status 200⟩,
        fun _ => ⟨fun _ => .reqErr "fetch down",
          fun _ => ⟨.href "L", .ok Option.none⟩, .netErr⟩,
        true⟩).files.length = 1 ∧
    (main ⟨"t", "f", ["bad cat"]⟩
      ⟨⟨.status 200, .status 200⟩,
        fun _ => ⟨fun _ => .reqErr "fetch down",
          fun _ => ⟨.href "L", .ok Option.none⟩, .netErr⟩,
        true⟩).files.get? 0 =
      some (failedRecord "f" "bad cat" "fetch down") ∧
    (failedRecord "f" "bad cat" "fetch down").status = .failed ∧
    (failedRecord "f" "bad cat" "fetch down").error = some "fetch down" := by
  have h := per_caption_isolation ⟨"t", "f", ["bad cat"]⟩
    ⟨⟨.status 200, .status 200⟩,
      fun _ => ⟨fun _ => .reqErr "fetch down",
        fun _ => ⟨.href "L", .ok Option.none⟩, .netErr⟩,
      true⟩
    (by decide) (by decide) 0 "bad cat" "fetch down" (by decide) (by decide)
  exact ⟨by decide, by decide, h.1, h.2.2.1, h.2.2.2.1, h.2.2.2.2⟩

/-- C9: a failure to write `files_info.json` is caught and only logged:
the run still completes (same records, same summary), the exit code is
the same as with a successful write — determined solely by the failed
count — and in particular a run with zero failed captions returns 0 even
though the summary file was not written. -/
theorem write_failure_soft (config : Config) (env : MainEnv)
    (hv : ¬ validate_config_raises config)
    (hf : (create_folder config.YANDEX_DISK_FOLDER env.folderEnv).1 = .ok) :
    (main config ⟨env.folderEnv, env.nets, false⟩).wrote = false ∧
    (main config ⟨env.folderEnv, env.nets, false⟩).exitCode =
      (main config env).exitCode ∧
    (main config ⟨env.folderEnv, env.nets, false⟩).files =
      (main config env).files ∧
    (main config ⟨env.folderEnv, env.nets, false⟩).summary =
      (main config env).summary ∧
    ((main config ⟨env.folderEnv, env.nets, false⟩).files.countP
        (fun r => decide (r.status = Status.failed)) = 0 →
      (main config ⟨env.folderEnv, env.nets, false⟩).exitCode = 0) := by
  have hf2 : (create_folder config.YANDEX_DISK_FOLDER
      (⟨env.folderEnv, env.nets, false⟩ : MainEnv).folderEnv).1 = .ok := hf
  simp only [main_ok config env hv hf,
    main_ok config ⟨env.folderEnv, env.nets, false⟩ hv hf2]
  refine ⟨trivial, trivial, trivial, trivial, fun hc => ?_⟩
  rw [← processAll_failed] at hc
  simp [hc]

/-- Closed witness for `write_failure_soft`: one successfully processed
caption and a failing JSON write still exit with code 0. -/
theorem write_failure_soft_witness :
    ¬ validate_config_raises ⟨"t", "f", ["ok"]⟩ ∧
    (main ⟨"t", "f", ["ok"]⟩
      ⟨⟨.status 404, .status 201⟩,
        fun _ => ⟨fun _ => .json (some "/i"),
          fun _ => ⟨.href "L", .ok Option.none⟩, .resp 200 (.obj (some 5))⟩,
        false⟩).wrote = false ∧
    (main ⟨"t", "f", ["ok"]⟩
      ⟨⟨.status 404, .status 201⟩,
        fun _ => ⟨fun _ => .json (some "/i"),
          fun _ => ⟨.href "L", .ok Option.none⟩, .resp 200 (.obj (some 5))⟩,
        false⟩).exitCode = 0 := by
  have h := write_failure_soft ⟨"t", "f", ["ok"]⟩
    ⟨⟨.status 404, .status 201⟩,
      fun _ => ⟨fun _ => .json (some "/i"),
        fun _ => ⟨.href "L", .ok Option.none⟩, .resp 200 (.obj (some 5))⟩,
      true⟩
    (by decide) (by decide)
  exact ⟨by decide, h.1, h.2.2.2.2 (by decide)⟩

end CatApp
